import Mathlib

/-!
Verification development for the ElectricTruckRouting repository.

The Python sources are shallowly embedded: machine floats become exact
rationals (`ℚ`), exceptions become an explicit outcome type, and the
small amount of mutable state (the temperature-loss factor) is passed
explicitly.  Each definition is translated from the corresponding
source function; external-library calls (networkx shortest path,
shapely buffers) are modelled by their documented semantics where
noted.
-/

namespace ETR

/-- Python exception kinds relevant to the embedded code.
`zeroDivisionError` models Python's `ZeroDivisionError` raised by
float division by zero.  `dataError` models the `DataError` class that
the specification's error taxonomy demands; no such class exists
anywhere in the repository, and no embedded function ever produces it. -/
inductive PyError where
  | zeroDivisionError
  | dataError
  deriving DecidableEq, Repr

/-- Outcome of running a piece of Python code: a value, or a raised
exception. -/
inductive PyOutcome (α : Type) where
  | ok (a : α)
  | error (e : PyError)
  deriving DecidableEq, Repr

/-- Functorial action on the value of an outcome (exceptions propagate). -/
def PyOutcome.map {α β : Type} (f : α → β) : PyOutcome α → PyOutcome β
  | .ok a => .ok (f a)
  | .error e => .error e

/-! ### Charging model — `charging_integration.py`, `ChargingStationManager` -/

/-- Battery/charger parameters set in `ChargingStationManager.__init__`
(lines 29–36 of `charging_integration.py`).  Defaults are the literal
values from the constructor. -/
structure ChargerParams where
  valid_power_levels_kw : List ℚ := [150, 300, 350, 750]
  battery_capacity_kwh : ℚ := 600
  max_charge_power_kw : ℚ := 750
  cc_cutoff_soc : ℚ := 4/5
  cc_efficiency : ℚ := 93/100
  cv_efficiency : ℚ := 22/25
  deriving DecidableEq, Repr

/-- The manager with the constructor's default parameters. -/
def defaultCharger : ChargerParams := {}

/-- Pure value of `ChargingStationManager.charging_time_minutes`
(the arithmetic of lines 116–152), assuming no division by zero.
Transcribed literally: early return 0 when `soc_target ≤ soc_initial`;
CC phase while `soc_initial < cc_cutoff_soc`; CV phase while
`soc_target > cc_cutoff_soc` at average power `0.40 × charger_power`. -/
def ctmVal (c : ChargerParams) (soc_initial soc_target charger_power_kw : ℚ) : ℚ :=
  if soc_target ≤ soc_initial then 0
  else
    ((if soc_initial < c.cc_cutoff_soc then
        (min soc_target c.cc_cutoff_soc - soc_initial) * c.battery_capacity_kwh /
          (charger_power_kw * c.cc_efficiency)
      else 0) +
     (if soc_target > c.cc_cutoff_soc then
        (soc_target - max soc_initial c.cc_cutoff_soc) * c.battery_capacity_kwh /
          (charger_power_kw * (2/5) * c.cv_efficiency)
      else 0)) * 60

/-- `ChargingStationManager.charging_time_minutes` with Python's
division-by-zero behaviour made explicit: the CC-phase division
(line 130) raises `ZeroDivisionError` when its divisor is zero, and
likewise the CV-phase division (line 145).  The guards mirror the
`if` structure of the source: a phase only divides when it applies. -/
def charging_time_minutes (c : ChargerParams)
    (soc_initial soc_target charger_power_kw : ℚ) : PyOutcome ℚ :=
  if soc_target ≤ soc_initial then .ok 0
  else if soc_initial < c.cc_cutoff_soc ∧ charger_power_kw * c.cc_efficiency = 0 then
    .error .zeroDivisionError
  else if soc_target > c.cc_cutoff_soc ∧ charger_power_kw * (2/5) * c.cv_efficiency = 0 then
    .error .zeroDivisionError
  else .ok (ctmVal c soc_initial soc_target charger_power_kw)

/-- The record returned by `simulate_charging_event` (lines 204–208). -/
structure ChargingEvent where
  soc_final : ℚ
  charging_minutes : ℚ
  energy_added_kwh : ℚ
  deriving DecidableEq, Repr

/-- `ChargingStationManager.simulate_charging_event` (lines 192–208):
calls `charging_time_minutes`, then reports the target SOC as final,
with `energy = (target_soc − soc_initial) × battery_capacity`. -/
def simulate_charging_event (c : ChargerParams)
    (soc_initial target_soc station_power_kw : ℚ) : PyOutcome ChargingEvent :=
  (charging_time_minutes c soc_initial target_soc station_power_kw).map
    fun time_min =>
      { soc_final := target_soc
        charging_minutes := time_min
        energy_added_kwh := (target_soc - soc_initial) * c.battery_capacity_kwh }

/-! ### Road graph — `graph_builder.py` (`RoadNetwork`) and the networkx
`MultiDiGraph` it wraps.  A node carries `(name, y = lat, x = lon)` as
set by `add_node(name, x=lon, y=lat)`; an edge carries `length` (m)
and `speed_kph`.  The synthetic graphs used here have no parallel
edges, so an edge list with at most one entry per `(u, v)` models the
multigraph faithfully. -/

structure EdgeData where
  length : ℚ
  speed_kph : ℚ
  deriving DecidableEq, Repr

structure Graph where
  nodes : List (String × ℚ × ℚ)
  edges : List (String × String × EdgeData)
  deriving DecidableEq, Repr

/-- First entry of an edge list joining `u` to `v`. -/
def findEdge : List (String × String × EdgeData) → String → String → Option EdgeData
  | [], _, _ => none
  | e :: rest, u, v => if e.1 = u ∧ e.2.1 = v then some e.2.2 else findEdge rest u v

/-- First stored edge from `u` to `v`: models
`list(G.get_edge_data(u, v).values())[0]` (`None` when absent). -/
def get_edge_data (g : Graph) (u v : String) : Option EdgeData :=
  findEdge g.edges u v

/-- Out-neighbours of `u` in edge-list order. -/
def successors (g : Graph) (u : String) : List String :=
  g.edges.filterMap (fun e => if e.1 = u then some e.2.1 else none)

/-- Depth-first enumeration of the simple paths from `cur` to `goal`
that avoid `visited`, with a fuel bound on path length. -/
def simplePathsAux (g : Graph) (goal : String) :
    Nat → String → List String → List (List String)
  | 0, _, _ => []
  | fuel + 1, cur, visited =>
    if cur = goal then [[cur]]
    else
      ((successors g cur).filter (fun v => decide (v ∉ visited))).flatMap
        (fun v => (simplePathsAux g goal fuel v (cur :: visited)).map (cur :: ·))

/-- All simple paths from `s` to `e`.  A simple path visits at most
`g.nodes.length` nodes, so that much fuel is exhaustive. -/
def simplePaths (g : Graph) (s e : String) : List (List String) :=
  simplePathsAux g e g.nodes.length s []

/-- Modelled semantics of `networkx.shortest_path(G, s, e, weight=...)`
(Dijkstra): it returns a path of minimal total weight, or raises
`NetworkXNoPath` (here: `none`) when no path exists.  With strictly
positive edge weights — true of every weight function `run_nsga`
builds on the graphs considered — a minimal-weight path is simple, so
minimising over the simple paths is faithful; ties are broken
deterministically by enumeration order. -/
def argminPath (w : List String → ℚ) : List (List String) → Option (List String)
  | [] => none
  | p :: ps => some (ps.foldl (fun best q => if w q < w best then q else best) p)

/-- Per-edge scalar weight assigned in `run_nsga` (lines 74–81 of
`optimization_model.py`): `dist_km/speed`, `1.45 kWh/km` energy, and
`0.42 kg CO₂/kWh` emissions, blended by the weight vector. -/
def nsgaEdgeWeight (w_time w_energy w_em : ℚ) (d : EdgeData) : ℚ :=
  let dist_km := d.length / 1000
  let time_h := dist_km / d.speed_kph
  let energy := dist_km * (29/20)
  let em_kg := energy * (21/50)
  w_time * time_h + w_energy * energy + w_em * em_kg

/-- Total `run_nsga` weight of a node sequence (missing consecutive
edges contribute nothing, mirroring the `continue`-style defaults). -/
def pathWeightSum (g : Graph) (wt we wm : ℚ) : List String → ℚ
  | u :: v :: rest =>
      ((get_edge_data g u v).elim 0 (nsgaEdgeWeight wt we wm)) +
        pathWeightSum g wt we wm (v :: rest)
  | _ => 0

/-- Total metres of a node sequence, as summed by
`MultiObjectiveOptimizer._path_metrics` (missing edges skipped via
`continue`). -/
def lenSum (g : Graph) : List String → ℚ
  | u :: v :: rest =>
      ((get_edge_data g u v).elim 0 EdgeData.length) + lenSum g (v :: rest)
  | _ => 0

/-- `EnergyModel.consumption_kwh_per_km` (`energy_model.py` line 174);
also the `getattr` fallback used by `_path_metrics` and `run_nsga`. -/
def consumption_kwh_per_km : ℚ := 29/20

/-- `MultiObjectiveOptimizer._path_metrics` (lines 28–48): distance,
then energy at 1.45 kWh/km, cost at 0.32 €/kWh, CO₂ at 0.42 kg/kWh.
Returns `(cost, energy, co2)`. -/
def path_metrics (g : Graph) (p : List String) : ℚ × ℚ × ℚ :=
  let km := lenSum g p / 1000
  let energy := km * consumption_kwh_per_km
  (energy * (8/25), energy, energy * (21/50))

/-- The `ParetoSolution` class of `optimization_model.py` (lines 4–9).
It records cost, energy, CO₂ and the node path only — it has no field
for charging events, and `run_nsga` never creates any. -/
structure ParetoSolution where
  cost : ℚ
  energy : ℚ
  co2 : ℚ
  path : List String
  deriving DecidableEq, Repr

/-- The five objective-weight vectors swept by `run_nsga`
(lines 52–58). -/
def weight_sets : List (ℚ × ℚ × ℚ) :=
  [(1, 0, 0), (0, 1, 0), (0, 0, 1), (33/100, 33/100, 34/100), (1/2, 1/4, 1/4)]

/-- The `unique` insertion-ordered dict of `run_nsga` (lines 89–95):
keep a solution only when no earlier one has the same node sequence. -/
def dedupByPath (sols : List ParetoSolution) : List ParetoSolution :=
  sols.foldl
    (fun acc s => if ∃ t ∈ acc, t.path = s.path then acc else acc ++ [s]) []

/-- `MultiObjectiveOptimizer.run_nsga` (`optimization_model.py`
lines 50–95): for each weight vector, a weighted shortest path (the
`except`-handler turns a failed search into the empty path), then
`_path_metrics`, then deduplication by node sequence. -/
def run_nsga (g : Graph) (start_node end_node : String) : List ParetoSolution :=
  dedupByPath <| weight_sets.map fun ws =>
    let path := (argminPath (pathWeightSum g ws.1 ws.2.1 ws.2.2)
        (simplePaths g start_node end_node)).getD []
    let m := path_metrics g path
    { cost := m.1, energy := m.2.1, co2 := m.2.2, path := path }

/-! ### SOC bookkeeping — `energy_model.py` / `route_energy.py` -/

/-- `ElectricTruckModel` battery parameters (lines 31–33). -/
def battery_capacity_kwh : ℚ := 600

/-- Minimum allowed state of charge, `ElectricTruckModel.min_soc`. -/
def min_soc : ℚ := 1/10

/-- `ElectricTruckModel.soc_after_segment` (lines 109–115):
`soc' = soc − energy/capacity`. -/
def soc_after_segment (capacity soc_initial energy_kwh : ℚ) : ℚ :=
  soc_initial - energy_kwh / capacity

/-- SOC after each successive segment of a path, starting from `soc0`
(the `RouteEnergyEvaluator.compute_route_energy` default is 0.90),
with per-segment energy `length_km × consumption_kwh_per_km` — the
energy model `run_nsga` itself prices edges with. -/
def socProfile (g : Graph) (soc0 : ℚ) : List String → List ℚ
  | u :: v :: rest =>
      let e := ((get_edge_data g u v).elim 0 EdgeData.length) / 1000 *
        consumption_kwh_per_km
      let soc1 := soc_after_segment battery_capacity_kwh soc0 e
      soc1 :: socProfile g soc1 (v :: rest)
  | _ => []

/-- The synthetic Hamburg→Munich graph built by
`RoadNetwork.build_graph_with_chargers` (`graph_builder.py`
lines 15–46), nodes and edges transcribed literally. -/
def germanyGraph : Graph where
  nodes := [("Hamburg", 535511/10000, 99937/10000),
    ("Hannover", 523791/10000, 97596/10000),
    ("Magdeburg", 521205/10000, 116276/10000),
    ("Erfurt", 509848/10000, 110299/10000),
    ("Nuremberg", 494521/10000, 110767/10000),
    ("Munich", 481351/10000, 115820/10000)]
  edges := [("Hamburg", "Hannover", ⟨150000, 100⟩),
    ("Hannover", "Magdeburg", ⟨120000, 100⟩),
    ("Magdeburg", "Erfurt", ⟨200000, 100⟩),
    ("Erfurt", "Nuremberg", ⟨230000, 100⟩),
    ("Nuremberg", "Munich", ⟨170000, 100⟩),
    ("Hannover", "Nuremberg", ⟨360000, 100⟩)]

/-- A two-node graph with no edges: no path exists from "A" to "B". -/
def disconnectedGraph : Graph where
  nodes := [("A", 0, 0), ("B", 0, 1)]
  edges := []

/-! ### Physical energy model — `energy_model.py` (`ElectricTruckModel`) -/

/-- Vehicle parameters from `ElectricTruckModel.__init__` (lines 16–33),
defaults transcribed literally. -/
structure TruckParams where
  mass_kg : ℚ := 40000
  frontal_area : ℚ := 9
  drag_coefficient : ℚ := 11/20
  rolling_res_coeff : ℚ := 3/500
  air_density : ℚ := 49/40
  drivetrain_eff : ℚ := 9/10
  regen_eff : ℚ := 13/20
  aux_load_kw : ℚ := 5/2
  deriving DecidableEq, Repr

/-- The model with the constructor's default parameters. -/
def defaultTruck : TruckParams := {}

/-- The local constant `g = 9.81` used by the power helpers. -/
def g_accel : ℚ := 981/100

/-- `ElectricTruckModel.rolling_resistance_power`: `Cr·m·g·v`. -/
def rolling_resistance_power (m : TruckParams) (speed_mps : ℚ) : ℚ :=
  m.rolling_res_coeff * m.mass_kg * g_accel * speed_mps

/-- `ElectricTruckModel.aerodynamic_drag_power`: `½·ρ·Cd·A·v³`. -/
def aerodynamic_drag_power (m : TruckParams) (speed_mps : ℚ) : ℚ :=
  1/2 * m.air_density * m.drag_coefficient * m.frontal_area * speed_mps ^ 3

/-- `ElectricTruckModel.climbing_power`: `m·g·grade·v`. -/
def climbing_power (m : TruckParams) (gradient speed_mps : ℚ) : ℚ :=
  m.mass_kg * g_accel * gradient * speed_mps

/-- `ElectricTruckModel.segment_energy_kwh` (lines 63–103), with
Python's behaviour at `avg_speed_mps = 0` made explicit: the division
`distance_m / avg_speed_mps` (line 89) raises `ZeroDivisionError`.
No other input is rejected; in particular `distance_m = 0` flows
through normally.  The code contains no validation and no `DataError`. -/
def segment_energy_kwh (m : TruckParams)
    (distance_m avg_speed_mps gradient : ℚ) : PyOutcome ℚ :=
  let P_total := rolling_resistance_power m avg_speed_mps +
    aerodynamic_drag_power m avg_speed_mps +
    climbing_power m gradient avg_speed_mps + m.aux_load_kw * 1000
  if avg_speed_mps = 0 then .error .zeroDivisionError
  else
    let time_sec := distance_m / avg_speed_mps
    let E_mech_wh := P_total * time_sec / 3600 * 1000
    let E_elec_wh :=
      if 0 ≤ E_mech_wh then E_mech_wh / m.drivetrain_eff
      else E_mech_wh * m.regen_eff
    .ok (E_elec_wh / 1000)

/-- `ElectricTruckModel.apply_temperature_effect` (lines 127–137),
expressed as the value it stores into the mutable field
`self.temperature_loss_factor`: 1.15 for `temp < 0`, 1.05 for
`0 ≤ temp < 10`, 1.00 otherwise. -/
def apply_temperature_effect (temp_c : ℚ) : ℚ :=
  if temp_c < 0 then 23/20 else if temp_c < 10 then 21/20 else 1

/-- `ElectricTruckModel.compute_edge_energy` (lines 143–150): sets the
temperature factor, computes the base segment energy, and returns
`base_energy * temperature_loss_factor` — applied uniformly, whatever
the sign of `base_energy`. -/
def compute_edge_energy (m : TruckParams)
    (edge_length_m speed_mps gradient temp_c : ℚ) : PyOutcome ℚ :=
  (segment_energy_kwh m edge_length_m speed_mps gradient).map
    (· * apply_temperature_effect temp_c)

/-! ### Station spatial query — `charging_integration.py`
(`get_candidate_stations_near_route`, lines 158–186) -/

/-- A loaded charging station (`Latitude`, `Longitude`, `Power_kW`). -/
structure Station where
  lat : ℚ
  lon : ℚ
  power_kw : ℚ
  deriving DecidableEq, Repr

/-- Coordinate lookup `self.graph.nodes[node]` → `(y, x)`. -/
def findNode : List (String × ℚ × ℚ) → String → Option (ℚ × ℚ)
  | [], _ => none
  | n :: rest, name => if n.1 = name then some n.2 else findNode rest name

/-- The route's points `(lat, lon)`, in node order (lines 167–178). -/
def routePoints (g : Graph) (path_nodes : List String) : List (ℚ × ℚ) :=
  path_nodes.filterMap (findNode g.nodes)

/-- Squared planar distance in degree coordinates. -/
def distSq (p q : ℚ × ℚ) : ℚ := (p.1 - q.1)^2 + (p.2 - q.2)^2

/-- Modelled semantics of the shapely filter (lines 180–184):
`unary_union.buffer(buffer_km / 111)` is the union of the disks of
radius `buffer_km/111` (planar degree units) around the route points,
and `Point.within(polygon)` holds exactly when the point lies in the
polygon's **interior** — a point on the boundary is not `within`.  So
a station passes iff it is strictly inside some disk.  (Shapely's
polygonal approximation of the circle is idealized to the true circle;
that does not affect boundary behaviour, since the approximating
polygon is inscribed in the circle.) -/
def withinBuffer (routePts : List (ℚ × ℚ)) (radius_deg : ℚ) (p : ℚ × ℚ) : Bool :=
  routePts.any (fun q => decide (distSq p q < radius_deg ^ 2))

/-- `ChargingStationManager.get_candidate_stations_near_route`
(lines 158–186): keep the stations whose point lies within the
`buffer_km / 111`-degree buffer around the route. -/
def get_candidate_stations_near_route (g : Graph) (stations : List Station)
    (path_nodes : List String) (buffer_km : ℚ) : List Station :=
  stations.filter
    (fun s => withinBuffer (routePoints g path_nodes) (buffer_km / 111) (s.lat, s.lon))

/-- A one-node graph whose single route point is the origin. -/
def originGraph : Graph where
  nodes := [("N", 0, 0)]
  edges := []

/-! ### Helper lemmas -/

/-- When neither phase divides by zero, `charging_time_minutes` returns
its arithmetic value. -/
lemma charging_time_eq_ok (c : ChargerParams) (i t p : ℚ)
    (hcc : p * c.cc_efficiency ≠ 0) (hcv : p * (2/5) * c.cv_efficiency ≠ 0) :
    charging_time_minutes c i t p = .ok (ctmVal c i t p) := by
  unfold charging_time_minutes ctmVal
  by_cases h : t ≤ i
  · simp [h]
  · simp [h, hcc, hcv]

/-- Charging time is non-negative when the divisors are positive. -/
lemma ctmVal_nonneg (c : ChargerParams) (i t p : ℚ)
    (hcap : 0 ≤ c.battery_capacity_kwh)
    (hcc : 0 < p * c.cc_efficiency) (hcv : 0 < p * (2/5) * c.cv_efficiency) :
    0 ≤ ctmVal c i t p := by
  unfold ctmVal
  by_cases h : t ≤ i
  · simp [h]
  · rw [if_neg h]
    push_neg at h
    have h1 : 0 ≤ (if i < c.cc_cutoff_soc then
        (min t c.cc_cutoff_soc - i) * c.battery_capacity_kwh / (p * c.cc_efficiency)
      else 0) := by
      split_ifs with hiL
      · apply div_nonneg _ (le_of_lt hcc)
        apply mul_nonneg _ hcap
        have : i ≤ min t c.cc_cutoff_soc := le_min (le_of_lt h) (le_of_lt hiL)
        linarith
      · exact le_refl 0
    have h2 : 0 ≤ (if t > c.cc_cutoff_soc then
        (t - max i c.cc_cutoff_soc) * c.battery_capacity_kwh /
          (p * (2/5) * c.cv_efficiency)
      else 0) := by
      split_ifs with hL
      · apply div_nonneg _ (le_of_lt hcv)
        apply mul_nonneg _ hcap
        have : max i c.cc_cutoff_soc ≤ t := max_le (le_of_lt h) (le_of_lt hL)
        linarith
      · exact le_refl 0
    nlinarith

/-- For a fixed initial SOC and fixed power, the charging-time value is
non-decreasing in the target SOC. -/
lemma ctmVal_mono (c : ChargerParams) (i t1 t2 p : ℚ)
    (hcap : 0 ≤ c.battery_capacity_kwh)
    (hcc : 0 < p * c.cc_efficiency) (hcv : 0 < p * (2/5) * c.cv_efficiency)
    (h12 : t1 ≤ t2) : ctmVal c i t1 p ≤ ctmVal c i t2 p := by
  rcases le_or_lt t1 i with h1 | h1
  · have e1 : ctmVal c i t1 p = 0 := by simp [ctmVal, h1]
    rw [e1]
    exact ctmVal_nonneg c i t2 p hcap hcc hcv
  · have h2 : i < t2 := lt_of_lt_of_le h1 h12
    simp only [ctmVal, if_neg (not_le.mpr h1), if_neg (not_le.mpr h2)]
    apply mul_le_mul_of_nonneg_right _ (by norm_num : (0:ℚ) ≤ 60)
    apply add_le_add
    · split_ifs with hiL
      · have hmin : min t1 c.cc_cutoff_soc ≤ min t2 c.cc_cutoff_soc :=
          min_le_min h12 le_rfl
        apply div_le_div_of_nonneg_right ?_ hcc.le
        apply mul_le_mul_of_nonneg_right _ hcap
        linarith
      · exact le_refl 0
    · split_ifs with hL1 hL2 hL2
      · apply div_le_div_of_nonneg_right ?_ hcv.le
        apply mul_le_mul_of_nonneg_right _ hcap
        linarith
      · exact absurd (lt_of_lt_of_le hL1 h12) hL2
      · apply div_nonneg _ (le_of_lt hcv)
        apply mul_nonneg _ hcap
        have : max i c.cc_cutoff_soc ≤ t2 := max_le (le_of_lt h2) (le_of_lt hL2)
        linarith
      · exact le_refl 0

/-! ### Claims about the charging model -/

/-- C2, counterexample: with the default battery parameters, charging
from SOC 0.20 to 0.80 at 350 kW returns `14400/217 ≈ 66.36` minutes —
strictly more than 66 — so it is not "approximately 59.2 minutes" as
the claim (following the spec) asserts. -/
theorem charging_time_cc_not_59_minutes :
    charging_time_minutes defaultCharger (1/5) (4/5) 350 = .ok (14400/217) ∧
    66 < (14400/217 : ℚ) ∧ ¬ (14400/217 : ℚ) < 60 := by
  refine ⟨?_, by norm_num, by norm_num⟩
  norm_num [charging_time_minutes, ctmVal, defaultCharger]

/-- C2 (amended): with default battery parameters (capacity 600 kWh,
CC cutoff 0.80, cc_efficiency 0.93), charging from soc 0.20 to 0.80 at
350 kW uses only the CC phase and returns exactly
`(0.60×600)/(350×0.93)×60` minutes — which is `14400/217 ≈ 66.4`
minutes, not 59.2. -/
theorem charging_time_cc_formula :
    charging_time_minutes defaultCharger (1/5) (4/5) 350 =
      .ok ((60/100 * 600) / (350 * (93/100)) * 60) := by
  norm_num [charging_time_minutes, ctmVal, defaultCharger]

/-- C7, counterexample: charging time is NOT monotone in the SOC delta
alone.  With 350 kW, going 0.85→0.95 (delta 0.10, all CV phase) takes
`2250/77 ≈ 29.2` minutes, while 0.20→0.40 (delta 0.20, all CC phase)
takes only `4800/217 ≈ 22.1` minutes: a smaller delta with a strictly
larger time. -/
theorem charging_time_not_monotone_in_delta :
    charging_time_minutes defaultCharger (17/20) (19/20) 350 = .ok (2250/77) ∧
    charging_time_minutes defaultCharger (1/5) (2/5) 350 = .ok (4800/217) ∧
    (19/20 : ℚ) - 17/20 < (2/5 : ℚ) - 1/5 ∧
    (4800/217 : ℚ) < 2250/77 := by
  refine ⟨?_, ?_, by norm_num, by norm_num⟩ <;>
    norm_num [charging_time_minutes, ctmVal, defaultCharger]

/-- C7 (amended): for fixed charger power and FIXED initial SOC, the
charging time returned by `charging_time_minutes` is monotonically
non-decreasing in the target SOC (equivalently, in the delta), and is
exactly zero whenever `soc_target ≤ soc_initial` (a no-op, not an
error).  Monotonicity in the delta alone fails across different
initial SOCs because the CV phase is slower (see the counterexample). -/
theorem charging_time_monotone_fixed_initial (c : ChargerParams) (i t1 t2 p : ℚ)
    (hcap : 0 ≤ c.battery_capacity_kwh)
    (hcc : 0 < p * c.cc_efficiency) (hcv : 0 < p * (2/5) * c.cv_efficiency)
    (h12 : t1 ≤ t2) :
    charging_time_minutes c i t1 p = .ok (ctmVal c i t1 p) ∧
    ctmVal c i t1 p ≤ ctmVal c i t2 p ∧
    (t1 ≤ i → ctmVal c i t1 p = 0) :=
  ⟨charging_time_eq_ok c i t1 p hcc.ne' hcv.ne',
   ctmVal_mono c i t1 t2 p hcap hcc hcv h12,
   fun h => by simp [ctmVal, h]⟩

/-- Witness for C7 (amended) at concrete inputs. -/
theorem charging_time_monotone_fixed_initial_witness :
    charging_time_minutes defaultCharger (1/2) (3/5) 350 =
      .ok (ctmVal defaultCharger (1/2) (3/5) 350) ∧
    ctmVal defaultCharger (1/2) (3/5) 350 ≤ ctmVal defaultCharger (1/2) (9/10) 350 ∧
    ((3/5 : ℚ) ≤ 1/2 → ctmVal defaultCharger (1/2) (3/5) 350 = 0) :=
  charging_time_monotone_fixed_initial defaultCharger (1/2) (3/5) (9/10) 350
    (by norm_num [defaultCharger]) (by norm_num [defaultCharger])
    (by norm_num [defaultCharger]) (by norm_num)

/-- C8, counterexample: 200 kW is not one of the supported power
levels `[150, 300, 350, 750]`, yet `charging_time_minutes` accepts it
silently and returns `3600/31 ≈ 116` minutes — no configuration error
is raised and nothing is clamped. -/
theorem unsupported_power_silently_accepted :
    charging_time_minutes defaultCharger (1/5) (4/5) 200 = .ok (3600/31) ∧
    (200 : ℚ) ∉ defaultCharger.valid_power_levels_kw := by
  constructor
  · norm_num [charging_time_minutes, ctmVal, defaultCharger]
  · norm_num [defaultCharger]

/-- C8 (amended): `charging_time_minutes` performs no validation of
the charger power against `valid_power_levels_kw`: any power whose
phase divisors are non-zero — supported or not — is accepted and used
directly in the formula.  The valid-levels list is consulted only when
filtering the station dataset at load time. -/
theorem charging_time_no_power_validation (c : ChargerParams) (i t p : ℚ)
    (_hp : p ∉ c.valid_power_levels_kw)
    (hcc : p * c.cc_efficiency ≠ 0) (hcv : p * (2/5) * c.cv_efficiency ≠ 0) :
    charging_time_minutes c i t p = .ok (ctmVal c i t p) :=
  charging_time_eq_ok c i t p hcc hcv

/-- Witness for C8 (amended) at the unsupported power 200 kW. -/
theorem charging_time_no_power_validation_witness :
    charging_time_minutes defaultCharger (1/5) (4/5) 200 =
      .ok (ctmVal defaultCharger (1/5) (4/5) 200) :=
  charging_time_no_power_validation defaultCharger (1/5) (4/5) 200
    (by norm_num [defaultCharger]) (by norm_num [defaultCharger])
    (by norm_num [defaultCharger])

/-- C10, counterexample: `simulate_charging_event` does not return a
result for *every* station power — at power 0 with target above
initial SOC the CC division raises `ZeroDivisionError`. -/
theorem simulate_charging_zero_power_raises :
    simulate_charging_event defaultCharger (1/5) (4/5) 0 =
      .error .zeroDivisionError := by
  norm_num [simulate_charging_event, charging_time_minutes, defaultCharger,
    PyOutcome.map]

/-- C10 (amended): for every `soc_initial`, `target_soc` and NON-ZERO
station power, `simulate_charging_event` returns `soc_final` exactly
equal to the requested `target_soc` and `energy_added_kwh` exactly
equal to `(target_soc − soc_initial) × capacity`; in particular, when
`target_soc < soc_initial` it returns zero charging minutes together
with a strictly negative `energy_added_kwh`, with no error raised.
(Zero power with `target_soc > soc_initial` raises
`ZeroDivisionError`, see the counterexample.) -/
theorem simulate_charging_event_fields (i t p : ℚ) (hp : p ≠ 0) :
    simulate_charging_event defaultCharger i t p =
      .ok { soc_final := t, charging_minutes := ctmVal defaultCharger i t p,
            energy_added_kwh := (t - i) * 600 } ∧
    (t < i → ctmVal defaultCharger i t p = 0 ∧ (t - i) * 600 < 0) := by
  have hcc : p * defaultCharger.cc_efficiency ≠ 0 :=
    mul_ne_zero hp (by norm_num [defaultCharger])
  have hcv : p * (2/5) * defaultCharger.cv_efficiency ≠ 0 :=
    mul_ne_zero (mul_ne_zero hp (by norm_num)) (by norm_num [defaultCharger])
  constructor
  · simp only [simulate_charging_event, charging_time_eq_ok _ _ _ _ hcc hcv]
    simp [PyOutcome.map, defaultCharger]
  · intro h
    exact ⟨by simp [ctmVal, le_of_lt h], by nlinarith⟩

/-- Witness for C10 (amended) at a discharging request. -/
theorem simulate_charging_event_fields_witness :
    simulate_charging_event defaultCharger (4/5) (1/2) 350 =
      .ok { soc_final := 1/2,
            charging_minutes := ctmVal defaultCharger (4/5) (1/2) 350,
            energy_added_kwh := ((1:ℚ)/2 - 4/5) * 600 } ∧
    ((1/2 : ℚ) < 4/5 → ctmVal defaultCharger (4/5) (1/2) 350 = 0 ∧
      ((1:ℚ)/2 - 4/5) * 600 < 0) :=
  simulate_charging_event_fields (4/5) (1/2) 350 (by norm_num)

/-! ### Lemmas about the synthetic Hamburg→Munich graph -/

lemma ge_HamHan : get_edge_data germanyGraph "Hamburg" "Hannover" = some ⟨150000, 100⟩ := by
  simp [get_edge_data, findEdge, germanyGraph]

lemma ge_HanNur : get_edge_data germanyGraph "Hannover" "Nuremberg" = some ⟨360000, 100⟩ := by
  simp [get_edge_data, findEdge, germanyGraph]

lemma ge_NurMun : get_edge_data germanyGraph "Nuremberg" "Munich" = some ⟨170000, 100⟩ := by
  simp [get_edge_data, findEdge, germanyGraph]

lemma ge_HanMag : get_edge_data germanyGraph "Hannover" "Magdeburg" = some ⟨120000, 100⟩ := by
  simp [get_edge_data, findEdge, germanyGraph]

lemma ge_MagErf : get_edge_data germanyGraph "Magdeburg" "Erfurt" = some ⟨200000, 100⟩ := by
  simp [get_edge_data, findEdge, germanyGraph]

lemma ge_ErfNur : get_edge_data germanyGraph "Erfurt" "Nuremberg" = some ⟨230000, 100⟩ := by
  simp [get_edge_data, findEdge, germanyGraph]

/-- Weighted length of the 680 km path, linear in the weight vector. -/
lemma pws680 (wt we wm : ℚ) :
    pathWeightSum germanyGraph wt we wm ["Hamburg", "Hannover", "Nuremberg", "Munich"] =
      wt * (34/5) + we * 986 + wm * (10353/25) := by
  simp [pathWeightSum, ge_HamHan, ge_HanNur, ge_NurMun, nsgaEdgeWeight]
  ring

/-- Weighted length of the 870 km path, linear in the weight vector. -/
lemma pws870 (wt we wm : ℚ) :
    pathWeightSum germanyGraph wt we wm
      ["Hamburg", "Hannover", "Magdeburg", "Erfurt", "Nuremberg", "Munich"] =
      wt * (87/10) + we * (2523/2) + wm * (52983/100) := by
  simp [pathWeightSum, ge_HamHan, ge_HanMag, ge_MagErf, ge_ErfNur, ge_NurMun,
    nsgaEdgeWeight]
  ring

/-- For every weight vector with a positive blended per-km coefficient
— as all five swept vectors have — the weighted shortest path from
Hamburg to Munich is the 680 km path via Hannover and Nuremberg. -/
lemma argmin_choice (wt we wm : ℚ)
    (hc : 0 < wt * (1/100) + we * (29/20) + wm * (609/1000)) :
    argminPath (pathWeightSum germanyGraph wt we wm)
      (simplePaths germanyGraph "Hamburg" "Munich") =
      some ["Hamburg", "Hannover", "Nuremberg", "Munich"] := by
  have hsp : simplePaths germanyGraph "Hamburg" "Munich" =
      [["Hamburg", "Hannover", "Magdeburg", "Erfurt", "Nuremberg", "Munich"],
       ["Hamburg", "Hannover", "Nuremberg", "Munich"]] := by decide
  rw [hsp]
  simp only [argminPath, List.foldl_cons, List.foldl_nil]
  rw [if_pos]
  rw [pws680, pws870]
  nlinarith [hc]

/-- `_path_metrics` of the 680 km path: 986 kWh at 1.45 kWh/km,
315.52 € at 0.32 €/kWh, 414.12 kg CO₂ at 0.42 kg/kWh. -/
lemma pm680 : path_metrics germanyGraph ["Hamburg", "Hannover", "Nuremberg", "Munich"] =
    (7888/25, 986, 10353/25) := by
  simp [path_metrics, lenSum, ge_HamHan, ge_HanNur, ge_NurMun, consumption_kwh_per_km]
  norm_num

/-- Deduplicating five equal solutions keeps exactly one. -/
lemma dedup_five (s : ParetoSolution) : dedupByPath [s, s, s, s, s] = [s] := by
  simp [dedupByPath]

/-- The SOC profile of the 680 km path from the default initial SOC
0.90: it reaches −0.3325 after the Hannover→Nuremberg segment. -/
lemma soc680 : socProfile germanyGraph (9/10) ["Hamburg", "Hannover", "Nuremberg", "Munich"] =
    [43/80, -133/400, -223/300] := by
  simp [socProfile, ge_HamHan, ge_HanNur, ge_NurMun, soc_after_segment,
    battery_capacity_kwh, consumption_kwh_per_km]
  norm_num

/-- When no path exists, every weight vector contributes the same
placeholder solution `(0, 0, 0, [])` and deduplication keeps one. -/
lemma run_nsga_no_path (g : Graph) (s e : String)
    (hsp : simplePaths g s e = []) :
    run_nsga g s e = [{ cost := 0, energy := 0, co2 := 0, path := [] }] := by
  simp only [run_nsga, weight_sets, List.map_cons, List.map_nil, hsp, argminPath,
    Option.getD_none]
  norm_num [path_metrics, lenSum, dedupByPath, consumption_kwh_per_km]

/-- The dedup fold keeps the paths of its accumulator pairwise distinct. -/
lemma foldl_dedup_pairwise :
    ∀ (l acc : List ParetoSolution),
      acc.Pairwise (fun a b => a.path ≠ b.path) →
      (l.foldl (fun acc s =>
          if ∃ t ∈ acc, t.path = s.path then acc else acc ++ [s]) acc).Pairwise
        (fun a b => a.path ≠ b.path)
  | [], acc, hacc => hacc
  | s :: l, acc, hacc => by
    simp only [List.foldl_cons]
    by_cases h : ∃ t ∈ acc, t.path = s.path
    · rw [if_pos h]
      exact foldl_dedup_pairwise l acc hacc
    · rw [if_neg h]
      apply foldl_dedup_pairwise
      rw [List.pairwise_append]
      refine ⟨hacc, List.pairwise_singleton _ _, ?_⟩
      intro a ha b hb
      rw [List.mem_singleton] at hb
      subst hb
      intro hpath
      exact h ⟨a, ha, hpath⟩

/-! ### Claims about the route search -/

/-- C1: the route search does NOT respect SOC feasibility.  On the
synthetic Hamburg→Munich graph, `run_nsga` returns exactly one
solution, the 680 km path via Hannover and Nuremberg, whose SOC
profile (per-km energy model, 600 kWh battery, initial SOC 0.90)
falls to −0.3325 < min_soc = 0.10 — and `ParetoSolution` carries no
charging events at all, so no charging stop restores feasibility.
This contradicts the claim/spec contract that such a route must never
be returned without an inserted charging event. -/
theorem run_nsga_returns_soc_infeasible_route :
    run_nsga germanyGraph "Hamburg" "Munich" =
      [{ cost := 7888/25, energy := 986, co2 := 10353/25,
         path := ["Hamburg", "Hannover", "Nuremberg", "Munich"] }] ∧
    ∃ soc ∈ socProfile germanyGraph (9/10)
        ["Hamburg", "Hannover", "Nuremberg", "Munich"], soc < min_soc := by
  constructor
  · have h1 := argmin_choice 1 0 0 (by norm_num)
    have h2 := argmin_choice 0 1 0 (by norm_num)
    have h3 := argmin_choice 0 0 1 (by norm_num)
    have h4 := argmin_choice (33/100) (33/100) (34/100) (by norm_num)
    have h5 := argmin_choice (1/2) (1/4) (1/4) (by norm_num)
    simp only [run_nsga, weight_sets, List.map_cons, List.map_nil, h1, h2, h3, h4,
      h5, Option.getD_some, pm680]
    exact dedup_five _
  · refine ⟨-133/400, ?_, by norm_num [min_soc]⟩
    rw [soc680]
    simp

/-- C4, counterexample: on a graph where no path exists from "A" to
"B" (so no weight vector has a feasible path), `run_nsga` does NOT
return an empty list: it contributes a placeholder `CandidateRoute`
with empty node sequence and zero metrics. -/
theorem no_path_yields_placeholder_solution :
    run_nsga disconnectedGraph "A" "B" =
      [{ cost := 0, energy := 0, co2 := 0, path := [] }] ∧
    run_nsga disconnectedGraph "A" "B" ≠ [] := by
  have h : run_nsga disconnectedGraph "A" "B" =
      [{ cost := 0, energy := 0, co2 := 0, path := [] }] :=
    run_nsga_no_path _ _ _ (by decide)
  exact ⟨h, by rw [h]; simp⟩

/-- C4 (amended): for a weight vector with no feasible path the
`except` handler turns the failure into the empty path, so the sweep
does not fail; but instead of contributing nothing, each such vector
contributes a placeholder solution `(cost 0, energy 0, co2 0, [])`,
deduplicated to a single entry in the returned list. -/
theorem run_nsga_no_path_placeholder (g : Graph) (s e : String)
    (hsp : simplePaths g s e = []) :
    run_nsga g s e = [{ cost := 0, energy := 0, co2 := 0, path := [] }] :=
  run_nsga_no_path g s e hsp

/-- Witness for C4 (amended) on the disconnected graph. -/
theorem run_nsga_no_path_placeholder_witness :
    run_nsga disconnectedGraph "A" "B" =
      [{ cost := 0, energy := 0, co2 := 0, path := [] }] :=
  run_nsga_no_path_placeholder disconnectedGraph "A" "B" (by decide)

/-- C9: for every graph, origin and destination, the list returned by
`run_nsga` contains no two solutions with identical node sequences —
the insertion-ordered dict dedup keeps the first of each path. -/
theorem run_nsga_dedup_pairwise (g : Graph) (s e : String) :
    (run_nsga g s e).Pairwise (fun a b => a.path ≠ b.path) :=
  foldl_dedup_pairwise _ [] List.Pairwise.nil

/-! ### Claims about the station query -/

/-- C3, counterexample: a station lying exactly on the buffer boundary
is EXCLUDED, not included.  With one route point at the origin and
`buffer_km = 111` (radius `111/111 = 1` degree under the code's own
km→degree conversion), a station exactly 1 degree away — squared
distance equal to the squared radius — is filtered out, because
shapely's `within` requires the interior. -/
theorem boundary_station_excluded :
    get_candidate_stations_near_route originGraph [⟨1, 0, 350⟩] ["N"] 111 = [] ∧
    distSq (1, 0) (0, 0) = ((111 : ℚ)/111)^2 := by
  constructor
  · norm_num [get_candidate_stations_near_route, withinBuffer, routePoints,
      findNode, originGraph, distSq, List.filter]
  · norm_num [distSq]

/-- C3 (amended): `get_candidate_stations_near_route` returns exactly
the loaded stations lying STRICTLY inside the buffer of radius
`buffer_km/111` degrees around the route points (planar degree
coordinates, as the code compares them): a station is returned iff its
squared degree-distance to some route point is strictly below the
squared radius; a station exactly on the boundary is excluded (open
buffer). -/
theorem candidates_near_route_open_buffer (g : Graph) (stations : List Station)
    (path_nodes : List String) (buffer_km : ℚ) (s : Station) :
    s ∈ get_candidate_stations_near_route g stations path_nodes buffer_km ↔
      s ∈ stations ∧
        ∃ q ∈ routePoints g path_nodes,
          distSq (s.lat, s.lon) q < (buffer_km/111)^2 := by
  simp [get_candidate_stations_near_route, withinBuffer, List.mem_filter,
    List.any_eq_true]

/-! ### Claims about the energy model -/

/-- C5, counterexample: a zero average speed is not rejected as a
`DataError` — the division `distance_m / avg_speed_mps` raises
`ZeroDivisionError`; and a zero-length segment is not rejected at all —
it is accepted and returns 0 kWh. -/
theorem zero_inputs_not_rejected_as_data_error :
    segment_energy_kwh defaultTruck 1000 0 0 = .error .zeroDivisionError ∧
    segment_energy_kwh defaultTruck 0 20 0 = .ok 0 := by
  constructor
  · simp [segment_energy_kwh]
  · norm_num [segment_energy_kwh, defaultTruck, rolling_resistance_power,
      aerodynamic_drag_power, climbing_power, g_accel]

/-- C5 (amended): `segment_energy_kwh` performs no input validation
and no `DataError` exists in the code: a zero average speed raises an
unhandled `ZeroDivisionError` (for every distance and gradient), and a
zero-length segment is silently accepted, returning 0 kWh (for every
non-zero speed and any gradient). -/
theorem segment_energy_zero_edge_cases (d grad v grad2 : ℚ) (hv : v ≠ 0) :
    segment_energy_kwh defaultTruck d 0 grad = .error .zeroDivisionError ∧
    segment_energy_kwh defaultTruck 0 v grad2 = .ok 0 := by
  constructor
  · simp [segment_energy_kwh]
  · simp [segment_energy_kwh, hv, zero_div, mul_zero, zero_mul]

/-- Witness for C5 (amended) at concrete inputs. -/
theorem segment_energy_zero_edge_cases_witness :
    segment_energy_kwh defaultTruck 1000 0 (1/100) = .error .zeroDivisionError ∧
    segment_energy_kwh defaultTruck 0 20 (1/50) = .ok 0 :=
  segment_energy_zero_edge_cases 1000 (1/100) 20 (1/50) (by norm_num)

/-- C6, counterexample: the derating factor DOES change regenerated
energy.  The steep downhill segment (1000 m, 20 m/s, gradient −0.05)
has negative base energy `−4141241/1440`, and at −5 °C
`compute_edge_energy` multiplies it by 1.15, changing its magnitude. -/
theorem derating_scales_regen_energy :
    segment_energy_kwh defaultTruck 1000 20 (-1/20) = .ok (-4141241/1440) ∧
    (-4141241/1440 : ℚ) < 0 ∧
    compute_edge_energy defaultTruck 1000 20 (-1/20) (-5) =
      .ok (-4141241/1440 * (23/20)) ∧
    (-4141241/1440 : ℚ) * (23/20) ≠ -4141241/1440 := by
  refine ⟨?_, by norm_num, ?_, by norm_num⟩
  · norm_num [segment_energy_kwh, defaultTruck, rolling_resistance_power,
      aerodynamic_drag_power, climbing_power, g_accel]
  · norm_num [compute_edge_energy, segment_energy_kwh, apply_temperature_effect,
      defaultTruck, rolling_resistance_power, aerodynamic_drag_power,
      climbing_power, g_accel, PyOutcome.map]

/-- C6 (amended): the temperature-derating multiplier is 1.15 below
0 °C, 1.05 for 0–10 °C and 1.00 from 10 °C up, and
`compute_edge_energy` applies it UNIFORMLY to the final energy —
including regenerated (negative) energy, whose magnitude is therefore
scaled by the same factor (strictly increased in cold weather), rather
than left unchanged. -/
theorem derating_applied_uniformly (m : TruckParams) (len v grad temp q : ℚ)
    (hq : segment_energy_kwh m len v grad = .ok q) :
    compute_edge_energy m len v grad temp = .ok (q * apply_temperature_effect temp) ∧
    (temp < 0 → apply_temperature_effect temp = 23/20) ∧
    (0 ≤ temp → temp < 10 → apply_temperature_effect temp = 21/20) ∧
    (10 ≤ temp → apply_temperature_effect temp = 1) ∧
    (q < 0 → temp < 0 → q * apply_temperature_effect temp < q) := by
  refine ⟨?_, ?_, ?_, ?_, ?_⟩
  · simp [compute_edge_energy, hq, PyOutcome.map]
  · intro h
    simp [apply_temperature_effect, h]
  · intro h1 h2
    simp [apply_temperature_effect, not_lt.mpr h1, h2]
  · intro h
    have h0 : ¬ temp < 0 := not_lt.mpr (by linarith)
    have h10 : ¬ temp < 10 := not_lt.mpr h
    simp [apply_temperature_effect, h0, h10]
  · intro hq0 ht
    have hf : apply_temperature_effect temp = 23/20 := by
      simp [apply_temperature_effect, ht]
    rw [hf]
    nlinarith

/-- Witness for C6 (amended) at the concrete regenerative segment. -/
theorem derating_applied_uniformly_witness :
    compute_edge_energy defaultTruck 1000 20 (-1/20) (-5) =
      .ok (-4141241/1440 * apply_temperature_effect (-5)) ∧
    ((-5 : ℚ) < 0 → apply_temperature_effect (-5) = 23/20) ∧
    ((0 : ℚ) ≤ -5 → (-5 : ℚ) < 10 → apply_temperature_effect (-5) = 21/20) ∧
    ((10 : ℚ) ≤ -5 → apply_temperature_effect (-5) = 1) ∧
    ((-4141241/1440 : ℚ) < 0 → (-5 : ℚ) < 0 →
      (-4141241/1440 : ℚ) * apply_temperature_effect (-5) < -4141241/1440) :=
  derating_applied_uniformly defaultTruck 1000 20 (-1/20) (-5) (-4141241/1440)
    (by norm_num [segment_energy_kwh, defaultTruck, rolling_resistance_power,
      aerodynamic_drag_power, climbing_power, g_accel])

end ETR
